import Mathlib

/-!
Shallow embedding of `access_manager.py` (AccessManager: administrative
override and identity service with a presence watchdog).

Modelling choices:
* `time.monotonic()` is an explicit parameter `now : ℚ` passed to each
  operation that reads the clock; float arithmetic is modelled exactly
  over the rationals.
* The mutable `AccessManager` object becomes an explicit state record
  `AMState`; each method returns its result paired with the next state.
* Python strings that the code strips, lower-cases or compares (badge
  ids, intents, directory keys) are modelled as `List Char` (`PyStr`),
  because Lean's `String.trim`/`String.toLower` do not reduce in the
  kernel; `pyStrip`/`pyLower` mirror `str.strip()`/`str.lower()`.
  Display-only text (tier names, result messages) stays `String`.
* Python `None` arguments become `Option PyStr`; the `AttributeError`
  raised by `None.strip()` becomes an `Except.error` result paired with
  the unchanged state (the exception propagates before any mutation).
* Python `int(x)` truncates toward zero; `pyInt` models this exactly.
-/

namespace AccessMgr

/-- A Python string, as the list of its characters. -/
abbrev PyStr := List Char

/-- Coerce a Lean string literal to its character list. -/
def pstr (s : String) : PyStr := s.data

/-- Embeds Python `str.strip()`: drop whitespace from both ends. -/
def pyStrip (s : PyStr) : PyStr :=
  ((s.dropWhile Char.isWhitespace).reverse.dropWhile Char.isWhitespace).reverse

/-- Embeds Python `str.lower()` (character-wise lower-casing). -/
def pyLower (s : PyStr) : PyStr :=
  s.map Char.toLower

/-- Embeds Python `str.startswith(p)`. -/
def pyStartsWith (s p : PyStr) : Bool :=
  p.isPrefixOf s

/-- Embeds Python `int(x)` on a numeric value: truncation toward zero. -/
def pyInt (q : ℚ) : ℤ :=
  if 0 ≤ q then ⌊q⌋ else ⌈q⌉

/-- Embeds `ClearanceLevel` (frozen dataclass): operator capabilities per tier. -/
structure ClearanceLevel where
  name : String
  tier_id : Nat
  speed_limit_scale : ℚ
  stiffness_boost : ℚ
deriving DecidableEq

/-- Embeds `TIER_1 = ClearanceLevel("Standard", 1, 0.5, 1.0)`. -/
def TIER_1 : ClearanceLevel := ⟨"Standard", 1, 1/2, 1⟩

/-- Embeds `TIER_2 = ClearanceLevel("Maintenance", 2, 0.8, 1.5)`. -/
def TIER_2 : ClearanceLevel := ⟨"Maintenance", 2, 4/5, 3/2⟩

/-- Embeds `TIER_3 = ClearanceLevel("Admin", 3, 1.0, 2.0)`. -/
def TIER_3 : ClearanceLevel := ⟨"Admin", 3, 1, 2⟩

/-- Embeds `AccessConfig` (frozen dataclass): timeout, heartbeat threshold,
and the badge directory `auth_cache` (an association list of key/value
pairs, mirroring the Python dict). Defaults are the Python defaults. -/
structure AccessConfig where
  MAINTENANCE_TIMEOUT_SEC : ℚ := 300
  HEARTBEAT_THRESHOLD_SEC : ℚ := 1
  auth_cache : List (PyStr × String) :=
    [(pstr "OP-7721", "Standard Operator"),
     (pstr "MAINT-900", "Maintenance Tech"),
     (pstr "ARCH-001", "Senior Architect")]
deriving DecidableEq

/-- The default configuration `AccessConfig()`. -/
def defaultConfig : AccessConfig := {}

/-- Embeds the mutable fields of an `AccessManager` instance together with
its injected `cfg`. -/
structure AMState where
  cfg : AccessConfig
  active_session : Option ClearanceLevel
  last_presence_time : ℚ
  active_badge : Option PyStr
deriving DecidableEq

/-- Embeds `AccessManager.__init__`: session fields start empty. -/
def initState (cfg : AccessConfig) : AMState :=
  { cfg := cfg, active_session := none, last_presence_time := 0, active_badge := none }

/-- Embeds the property `is_override_active`. -/
def is_override_active (s : AMState) : Bool :=
  s.active_session.isSome

/-- Dict key membership `clean_badge in self.cfg.auth_cache`. -/
def authHasKey (cache : List (PyStr × String)) (k : PyStr) : Bool :=
  cache.any (fun p => p.1 == k)

/-- Embeds the local list `valid_intents` of `request_override`. -/
def valid_intents : List PyStr :=
  [pstr "start maintenance", pstr "admin override", pstr "system check"]

/-- The single fault the embedded API can signal, mirroring the
`AttributeError` raised when a `None` input hits `.strip()`. -/
inductive Fault where
  | attributeError
deriving DecidableEq

/-- Embeds `AccessManager.request_override`. `None` inputs yield
`Except.error` with the state unchanged (the Python exception is raised
at step 0, before any mutation). Otherwise: badge membership check,
intent check, then the grant that assigns the tier by badge id prefix,
sets the badge and stamps the presence clock. -/
def request_override (badge_id voice_intent : Option PyStr) (now : ℚ)
    (s : AMState) : Except Fault Bool × AMState :=
  match badge_id, voice_intent with
  | some b, some v =>
    let clean_badge := pyStrip b
    let clean_intent := pyLower (pyStrip v)
    if authHasKey s.cfg.auth_cache clean_badge then
      if valid_intents.contains clean_intent then
        (Except.ok true,
          { s with
              active_session := some
                (if pyStartsWith clean_badge (pstr "ARCH") then TIER_3
                 else if pyStartsWith clean_badge (pstr "MAINT") then TIER_2
                 else TIER_1),
              active_badge := some clean_badge,
              last_presence_time := now })
      else (Except.ok false, s)
    else (Except.ok false, s)
  | _, _ => (Except.error Fault.attributeError, s)

/-- Embeds `AccessManager.secure_logout`: unconditionally clears the
session fields (the Python `if` only gates a log line). -/
def secure_logout (s : AMState) : AMState :=
  { s with active_session := none, active_badge := none, last_presence_time := 0 }

/-- Embeds `AccessManager.maintenance_pulse`: standby is a no-op; when
active, presence refreshes the clock before `elapsed` is computed; strict
overrun forces a logout, otherwise the remaining whole seconds are
reported. -/
def maintenance_pulse (operator_present : Bool) (now : ℚ)
    (s : AMState) : (Bool × String) × AMState :=
  if !is_override_active s then
    ((true, "STANDBY: No active override."), s)
  else
    let s1 := if operator_present then { s with last_presence_time := now } else s
    let elapsed := now - s1.last_presence_time
    if elapsed > s.cfg.MAINTENANCE_TIMEOUT_SEC then
      ((false, "EMERGENCY: Watchdog timeout. Reverting to Safe Mode."),
        secure_logout s1)
    else
      let remaining := pyInt (s.cfg.MAINTENANCE_TIMEOUT_SEC - elapsed)
      ((true, "ACTIVE: Session confirmed. Timeout in " ++ toString remaining ++ "s"), s1)

/-- Embeds the telemetry dict of `get_telemetry`: optional fields model
keys that are absent in one of the two branches. -/
structure Telemetry where
  active : Bool
  msg : Option String
  tier : Option String
  badge : Option PyStr
  time_left : ℚ
deriving DecidableEq

/-- Embeds `AccessManager.get_telemetry` (read-only: no successor state). -/
def get_telemetry (now : ℚ) (s : AMState) : Telemetry :=
  if !is_override_active s then
    { active := false, msg := some "STANDBY", tier := none, badge := none, time_left := 0 }
  else
    let elapsed := now - s.last_presence_time
    let time_left := max 0 (s.cfg.MAINTENANCE_TIMEOUT_SEC - elapsed)
    { active := true,
      msg := none,
      tier := some ((s.active_session.map ClearanceLevel.name).getD "N/A"),
      badge := s.active_badge,
      time_left := time_left }

/-- One API call of the manager, with its clock reading where the method
consults the clock. -/
inductive Op where
  | reqOverride (badge_id voice_intent : Option PyStr) (now : ℚ)
  | pulse (operator_present : Bool) (now : ℚ)
  | telemetry (now : ℚ)
  | logout

/-- State effect of one API call. -/
def applyOp : Op → AMState → AMState
  | .reqOverride b v now, s => (request_override b v now s).2
  | .pulse p now, s => (maintenance_pulse p now s).2
  | .telemetry _, s => s
  | .logout, s => secure_logout s

/-- Observable return value of one API call. -/
inductive Output where
  | reqOut (r : Except Fault Bool)
  | pulseOut (stillActive : Bool) (message : String)
  | telemOut (t : Telemetry)
  | logoutOut

/-- Observable output of one API call in a given state. -/
def obsOp : Op → AMState → Output
  | .reqOverride b v now, s => .reqOut (request_override b v now s).1
  | .pulse p now, s => .pulseOut (maintenance_pulse p now s).1.1 (maintenance_pulse p now s).1.2
  | .telemetry now, s => .telemOut (get_telemetry now s)
  | .logout, _ => .logoutOut

/-- Final state after a call sequence. -/
def runState : List Op → AMState → AMState
  | [], s => s
  | op :: ops, s => runState ops (applyOp op s)

/-- Output trace of a call sequence. -/
def runOutputs : List Op → AMState → List Output
  | [], _ => []
  | op :: ops, s => obsOp op s :: runOutputs ops (applyOp op s)

/-- States reachable from construction by any sequence of API calls. -/
inductive Reachable (cfg : AccessConfig) : AMState → Prop
  | init : Reachable cfg (initState cfg)
  | step (op : Op) {s : AMState} : Reachable cfg s → Reachable cfg (applyOp op s)

/-- Two states agree on everything except the heartbeat-threshold
configuration field. -/
def hbAgnostic (s t : AMState) : Prop :=
  s.cfg.MAINTENANCE_TIMEOUT_SEC = t.cfg.MAINTENANCE_TIMEOUT_SEC ∧
  s.cfg.auth_cache = t.cfg.auth_cache ∧
  s.active_session = t.active_session ∧
  s.last_presence_time = t.last_presence_time ∧
  s.active_badge = t.active_badge

/-- Boolean list membership agrees with propositional membership. -/
lemma contains_eq_true_iff_mem (l : List PyStr) (x : PyStr) :
    l.contains x = true ↔ x ∈ l := List.elem_iff

/-- Truncation agrees with the floor on non-negative arguments. -/
lemma pyInt_of_nonneg {q : ℚ} (h : 0 ≤ q) : pyInt q = ⌊q⌋ := by
  simp [pyInt, h]

/-- An override request never changes the configuration. -/
lemma request_override_cfg (b v : Option PyStr) (now : ℚ) (s : AMState) :
    (request_override b v now s).2.cfg = s.cfg := by
  unfold request_override
  cases b <;> cases v <;>
    first
      | rfl
      | (dsimp only; split <;> (try split) <;> rfl)

/-- A pulse never changes the configuration. -/
lemma maintenance_pulse_cfg (p : Bool) (now : ℚ) (s : AMState) :
    (maintenance_pulse p now s).2.cfg = s.cfg := by
  unfold maintenance_pulse secure_logout
  split
  · rfl
  · cases p <;> simp <;> split <;> simp

/-- Logout never changes the configuration. -/
lemma secure_logout_cfg (s : AMState) : (secure_logout s).cfg = s.cfg := rfl

/-- No API call changes the configuration. -/
lemma applyOp_cfg (op : Op) (s : AMState) : (applyOp op s).cfg = s.cfg := by
  cases op with
  | reqOverride b v now => exact request_override_cfg b v now s
  | pulse p now => exact maintenance_pulse_cfg p now s
  | telemetry _ => rfl
  | logout => rfl

/-- C1: for every non-null badge and intent, `request_override` returns
true exactly when the trimmed badge id is a key of the auth directory
(case-sensitively) and the trimmed, lower-cased intent is recognized;
whenever it returns false the session state is unchanged. -/
theorem C1_request_override_grant_iff (b v : PyStr) (now : ℚ) (s : AMState) :
    (request_override (some b) (some v) now s).1 =
      Except.ok (authHasKey s.cfg.auth_cache (pyStrip b) &&
                 valid_intents.contains (pyLower (pyStrip v))) ∧
    ((authHasKey s.cfg.auth_cache (pyStrip b) &&
      valid_intents.contains (pyLower (pyStrip v))) = false →
      (request_override (some b) (some v) now s).2 = s) := by
  cases hA : authHasKey s.cfg.auth_cache (pyStrip b) <;>
    cases hB : valid_intents.contains (pyLower (pyStrip v))
  case false.false => simp [request_override, hA, hB]
  case false.true => simp [request_override, hA, hB]
  case true.false =>
    have hB' : ¬ pyLower (pyStrip v) ∈ valid_intents := by
      simpa using hB
    simp [request_override, hA, hB, hB']
  case true.true =>
    have hB' : pyLower (pyStrip v) ∈ valid_intents :=
      (contains_eq_true_iff_mem _ _).mp hB
    simp [request_override, hA, hB, hB']

/-- Witness for C1 at the lowercase-badge denial input. -/
theorem C1_witness :
    (request_override (some (pstr "arch-001")) (some (pstr "admin override")) 7
        (initState defaultConfig)).1 =
      Except.ok (authHasKey (initState defaultConfig).cfg.auth_cache
                   (pyStrip (pstr "arch-001")) &&
                 valid_intents.contains (pyLower (pyStrip (pstr "admin override")))) ∧
    (request_override (some (pstr "arch-001")) (some (pstr "admin override")) 7
        (initState defaultConfig)).2 = initState defaultConfig :=
  ⟨(C1_request_override_grant_iff (pstr "arch-001") (pstr "admin override") 7
      (initState defaultConfig)).1,
   (C1_request_override_grant_iff (pstr "arch-001") (pstr "admin override") 7
      (initState defaultConfig)).2 (by decide)⟩

/-- C2: with an active session, a pulse at exactly the timeout stays
active with the state untouched; a pulse strictly past the timeout
returns false with the emergency message and clears the session to
standby. -/
theorem C2_watchdog_boundary (s : AMState)
    (hact : is_override_active s = true) :
    ((maintenance_pulse false (s.last_presence_time + s.cfg.MAINTENANCE_TIMEOUT_SEC) s).1.1 =
        true ∧
     (maintenance_pulse false (s.last_presence_time + s.cfg.MAINTENANCE_TIMEOUT_SEC) s).2 = s) ∧
    ∀ ε : ℚ, 0 < ε →
      (maintenance_pulse false (s.last_presence_time + s.cfg.MAINTENANCE_TIMEOUT_SEC + ε) s).1 =
        (false, "EMERGENCY: Watchdog timeout. Reverting to Safe Mode.") ∧
      (maintenance_pulse false (s.last_presence_time + s.cfg.MAINTENANCE_TIMEOUT_SEC + ε) s).2 =
        { cfg := s.cfg, active_session := none, last_presence_time := 0,
          active_badge := none } := by
  have h1 : s.last_presence_time + s.cfg.MAINTENANCE_TIMEOUT_SEC - s.last_presence_time =
      s.cfg.MAINTENANCE_TIMEOUT_SEC := by ring
  refine ⟨?_, ?_⟩
  · unfold maintenance_pulse
    simp [hact, h1]
  · intro ε hε
    have h2 : s.last_presence_time + s.cfg.MAINTENANCE_TIMEOUT_SEC + ε - s.last_presence_time =
        s.cfg.MAINTENANCE_TIMEOUT_SEC + ε := by ring
    have h3 : s.cfg.MAINTENANCE_TIMEOUT_SEC + ε > s.cfg.MAINTENANCE_TIMEOUT_SEC :=
      lt_add_of_pos_right _ hε
    unfold maintenance_pulse
    simp [hact, h2, h3, secure_logout]

/-- Witness for C2 at a concrete active state with ε = 1. -/
theorem C2_witness :
    (((maintenance_pulse false ((100 : ℚ) + (300 : ℚ))
        { cfg := defaultConfig, active_session := some TIER_2,
          last_presence_time := 100, active_badge := some (pstr "MAINT-900") }).1.1 = true ∧
      (maintenance_pulse false ((100 : ℚ) + (300 : ℚ))
        { cfg := defaultConfig, active_session := some TIER_2,
          last_presence_time := 100, active_badge := some (pstr "MAINT-900") }).2 =
        { cfg := defaultConfig, active_session := some TIER_2,
          last_presence_time := 100, active_badge := some (pstr "MAINT-900") }) ∧
     (maintenance_pulse false ((100 : ℚ) + (300 : ℚ) + 1)
        { cfg := defaultConfig, active_session := some TIER_2,
          last_presence_time := 100, active_badge := some (pstr "MAINT-900") }).1 =
       (false, "EMERGENCY: Watchdog timeout. Reverting to Safe Mode.") ∧
     (maintenance_pulse false ((100 : ℚ) + (300 : ℚ) + 1)
        { cfg := defaultConfig, active_session := some TIER_2,
          last_presence_time := 100, active_badge := some (pstr "MAINT-900") }).2 =
       { cfg := defaultConfig, active_session := none, last_presence_time := 0,
         active_badge := none }) :=
  ⟨(C2_watchdog_boundary
      { cfg := defaultConfig, active_session := some TIER_2,
        last_presence_time := 100, active_badge := some (pstr "MAINT-900") } rfl).1,
   (C2_watchdog_boundary
      { cfg := defaultConfig, active_session := some TIER_2,
        last_presence_time := 100, active_badge := some (pstr "MAINT-900") } rfl).2
     1 (by norm_num)⟩

/-- C3: a request passing both checks unconditionally overwrites any prior
session, assigning the tier by badge id start in priority order ARCH
(Admin, tier 3), then MAINT (Maintenance, tier 2), else Standard
(tier 1); it stores the trimmed badge, stamps the presence time and
returns true. -/
theorem C3_grant_overwrites (b v : PyStr) (now : ℚ) (s : AMState)
    (hb : authHasKey s.cfg.auth_cache (pyStrip b) = true)
    (hv : valid_intents.contains (pyLower (pyStrip v)) = true) :
    request_override (some b) (some v) now s =
      (Except.ok true,
        { s with
            active_session := some
              (if pyStartsWith (pyStrip b) (pstr "ARCH") then TIER_3
               else if pyStartsWith (pyStrip b) (pstr "MAINT") then TIER_2
               else TIER_1),
            active_badge := some (pyStrip b),
            last_presence_time := now }) ∧
    TIER_3.name = "Admin" ∧ TIER_3.tier_id = 3 ∧
    TIER_2.name = "Maintenance" ∧ TIER_2.tier_id = 2 ∧
    TIER_1.name = "Standard" ∧ TIER_1.tier_id = 1 := by
  refine ⟨?_, rfl, rfl, rfl, rfl, rfl, rfl⟩
  have hv' : pyLower (pyStrip v) ∈ valid_intents :=
    (contains_eq_true_iff_mem _ _).mp hv
  unfold request_override
  simp [hb, hv']

/-- Witness for C3: a Standard-tier badge replaces an active Admin session
(a downgrade also wins). -/
theorem C3_witness :
    request_override (some (pstr "OP-7721")) (some (pstr "System Check")) 42
        { cfg := defaultConfig, active_session := some TIER_3,
          last_presence_time := 5, active_badge := some (pstr "ARCH-001") } =
      (Except.ok true,
        { cfg := defaultConfig,
          active_session := some
            (if pyStartsWith (pyStrip (pstr "OP-7721")) (pstr "ARCH") then TIER_3
             else if pyStartsWith (pyStrip (pstr "OP-7721")) (pstr "MAINT") then TIER_2
             else TIER_1),
          last_presence_time := 42,
          active_badge := some (pyStrip (pstr "OP-7721")) }) ∧
    TIER_3.name = "Admin" ∧ TIER_3.tier_id = 3 ∧
    TIER_2.name = "Maintenance" ∧ TIER_2.tier_id = 2 ∧
    TIER_1.name = "Standard" ∧ TIER_1.tier_id = 1 :=
  C3_grant_overwrites (pstr "OP-7721") (pstr "System Check") 42
    { cfg := defaultConfig, active_session := some TIER_3,
      last_presence_time := 5, active_badge := some (pstr "ARCH-001") }
    (by decide) (by decide)

/-- C4: the attribute fault occurs exactly when the badge or the intent is
null; a faulting call leaves the state unchanged; hence every pair of
actual strings gets an ordinary boolean answer, never a fault. -/
theorem C4_null_fault_iff (badge_id voice_intent : Option PyStr) (now : ℚ)
    (s : AMState) :
    ((request_override badge_id voice_intent now s).1 =
        Except.error Fault.attributeError ↔
      badge_id = none ∨ voice_intent = none) ∧
    (badge_id = none ∨ voice_intent = none →
      request_override badge_id voice_intent now s =
        (Except.error Fault.attributeError, s)) := by
  cases badge_id <;> cases voice_intent <;>
    (simp [request_override]; try (split <;> (try split) <;> simp))

/-- Witness for C4 at a null badge id. -/
theorem C4_witness :
    ((request_override none (some (pstr "admin override")) 3 (initState defaultConfig)).1 =
        Except.error Fault.attributeError ↔
      (none : Option PyStr) = none ∨ (some (pstr "admin override") : Option PyStr) = none) ∧
    request_override none (some (pstr "admin override")) 3 (initState defaultConfig) =
      (Except.error Fault.attributeError, initState defaultConfig) :=
  ⟨(C4_null_fault_iff none (some (pstr "admin override")) 3 (initState defaultConfig)).1,
   (C4_null_fault_iff none (some (pstr "admin override")) 3 (initState defaultConfig)).2
     (Or.inl rfl)⟩

/-- A fixed active state used to instantiate hypotheses concretely. -/
def sampleActive : AMState :=
  { cfg := defaultConfig, active_session := some TIER_3,
    last_presence_time := 10, active_badge := some (pstr "ARCH-001") }

/-- The state after a pulse: unchanged, or (only when the override was
active) refreshed to the current time or cleared by the forced logout. -/
lemma maintenance_pulse_state_cases (p : Bool) (now : ℚ) (s : AMState) :
    (maintenance_pulse p now s).2 = s ∨
    (is_override_active s = true ∧
      ((maintenance_pulse p now s).2 = { s with last_presence_time := now } ∨
       (maintenance_pulse p now s).2 = secure_logout s)) := by
  unfold maintenance_pulse
  cases p <;> dsimp only <;> split_ifs with h1 h2 <;>
    first
      | exact Or.inl rfl
      | (refine Or.inr ⟨?_, ?_⟩
         · revert h1
           cases is_override_active s <;> simp
         · first
             | exact Or.inl rfl
             | exact Or.inr rfl)

/-- Every API call preserves the pairing of clearance and badge. -/
lemma applyOp_pairing (op : Op) (s : AMState)
    (h : s.active_session = none ↔ s.active_badge = none) :
    ((applyOp op s).active_session = none ↔ (applyOp op s).active_badge = none) := by
  cases op with
  | reqOverride b v now =>
    cases b <;> cases v <;>
      first
        | exact h
        | (dsimp only [applyOp, request_override]
           split
           · split
             · simp
             · exact h
           · exact h)
  | pulse p now =>
    rcases maintenance_pulse_state_cases p now s with heq | ⟨hact, heq | heq⟩ <;>
      simp only [applyOp, heq]
    · exact h
    · exact h
    · simp [secure_logout]
  | telemetry _ => exact h
  | logout => simp [applyOp, secure_logout]

/-- Every API call preserves that a standby state has presence clock zero. -/
lemma applyOp_standby_zero (op : Op) (s : AMState)
    (h : s.active_session = none → s.last_presence_time = 0) :
    (applyOp op s).active_session = none → (applyOp op s).last_presence_time = 0 := by
  cases op with
  | reqOverride b v now =>
    cases b <;> cases v <;>
      first
        | exact h
        | (dsimp only [applyOp, request_override]
           split
           · split
             · simp
             · exact h
           · exact h)
  | pulse p now =>
    rcases maintenance_pulse_state_cases p now s with heq | ⟨hact, heq | heq⟩ <;>
      simp only [applyOp, heq]
    · exact h
    · intro hnone
      have hn2 : s.active_session = none := hnone
      simp [is_override_active, hn2] at hact
    · simp [secure_logout]
  | telemetry _ => exact h
  | logout => simp [applyOp, secure_logout]

/-- The two session invariants hold in every reachable state. -/
lemma reachable_invariant (cfg : AccessConfig) (s : AMState) (h : Reachable cfg s) :
    (s.active_session = none ↔ s.active_badge = none) ∧
    (s.active_session = none → s.last_presence_time = 0) := by
  induction h with
  | init => simp [initState]
  | step op hr ih => exact ⟨applyOp_pairing op _ ih.1, applyOp_standby_zero op _ ih.2⟩

/-- C5: in every state reachable from construction by API calls, the
clearance is absent exactly when the badge is absent, and both are
present exactly when the override is active. -/
theorem C5_session_badge_paired (cfg : AccessConfig) (s : AMState)
    (h : Reachable cfg s) :
    (s.active_session = none ↔ s.active_badge = none) ∧
    (is_override_active s = true ↔
      s.active_session.isSome = true ∧ s.active_badge.isSome = true) := by
  have core := (reachable_invariant cfg s h).1
  refine ⟨core, ?_⟩
  unfold is_override_active
  constructor
  · intro ha
    refine ⟨ha, ?_⟩
    rw [Option.isSome_iff_ne_none] at ha ⊢
    exact fun hb => ha (core.mpr hb)
  · exact fun hab => hab.1

/-- Witness for C5 at the initial state. -/
theorem C5_witness :
    ((initState defaultConfig).active_session = none ↔
      (initState defaultConfig).active_badge = none) ∧
    (is_override_active (initState defaultConfig) = true ↔
      (initState defaultConfig).active_session.isSome = true ∧
      (initState defaultConfig).active_badge.isSome = true) :=
  C5_session_badge_paired defaultConfig (initState defaultConfig) Reachable.init

/-- C6: telemetry is read-only; standby yields an inactive zero snapshot;
an active session yields the clearance display name, the badge, and a
time left of max 0 (timeout − elapsed) from the current clock; time left
is never negative. -/
theorem C6_telemetry_snapshot (now : ℚ) (s : AMState) :
    applyOp (Op.telemetry now) s = s ∧
    (is_override_active s = false →
      get_telemetry now s =
        { active := false, msg := some "STANDBY", tier := none, badge := none,
          time_left := 0 }) ∧
    (is_override_active s = true →
      get_telemetry now s =
        { active := true, msg := none,
          tier := some ((s.active_session.map ClearanceLevel.name).getD "N/A"),
          badge := s.active_badge,
          time_left := max 0 (s.cfg.MAINTENANCE_TIMEOUT_SEC -
            (now - s.last_presence_time)) }) ∧
    0 ≤ (get_telemetry now s).time_left := by
  refine ⟨rfl, ?_, ?_, ?_⟩
  · intro h
    simp [get_telemetry, h]
  · intro h
    simp [get_telemetry, h]
  · unfold get_telemetry
    split
    · simp
    · simp

/-- Witness for C6 at a concrete active state. -/
theorem C6_witness :
    applyOp (Op.telemetry 40) sampleActive = sampleActive ∧
    get_telemetry 40 sampleActive =
      { active := true, msg := none,
        tier := some ((sampleActive.active_session.map ClearanceLevel.name).getD "N/A"),
        badge := sampleActive.active_badge,
        time_left := max 0 (sampleActive.cfg.MAINTENANCE_TIMEOUT_SEC -
          ((40 : ℚ) - sampleActive.last_presence_time)) } ∧
    0 ≤ (get_telemetry 40 sampleActive).time_left :=
  ⟨(C6_telemetry_snapshot 40 sampleActive).1,
   (C6_telemetry_snapshot 40 sampleActive).2.2.1 rfl,
   (C6_telemetry_snapshot 40 sampleActive).2.2.2⟩

/-- C7: logout is idempotent, always lands in the cleared standby state,
and on a reachable standby state it is a strict no-op. -/
theorem C7_secure_logout_idempotent (cfg : AccessConfig) (s : AMState)
    (h : Reachable cfg s) :
    secure_logout (secure_logout s) = secure_logout s ∧
    ((secure_logout s).active_session = none ∧
     (secure_logout s).active_badge = none ∧
     (secure_logout s).last_presence_time = 0) ∧
    (is_override_active s = false → secure_logout s = s) := by
  refine ⟨rfl, ⟨rfl, rfl, rfl⟩, ?_⟩
  intro hstandby
  have hsess : s.active_session = none := by
    revert hstandby
    unfold is_override_active
    cases s.active_session <;> simp
  have hbadge : s.active_badge = none := (reachable_invariant cfg s h).1.mp hsess
  have hlast : s.last_presence_time = 0 := (reachable_invariant cfg s h).2 hsess
  cases s
  simp_all [secure_logout]

/-- Witness for C7 at the initial (standby) state. -/
theorem C7_witness :
    secure_logout (secure_logout (initState defaultConfig)) =
      secure_logout (initState defaultConfig) ∧
    ((secure_logout (initState defaultConfig)).active_session = none ∧
     (secure_logout (initState defaultConfig)).active_badge = none ∧
     (secure_logout (initState defaultConfig)).last_presence_time = 0) ∧
    secure_logout (initState defaultConfig) = initState defaultConfig :=
  ⟨(C7_secure_logout_idempotent defaultConfig (initState defaultConfig) Reachable.init).1,
   (C7_secure_logout_idempotent defaultConfig (initState defaultConfig) Reachable.init).2.1,
   (C7_secure_logout_idempotent defaultConfig (initState defaultConfig) Reachable.init).2.2
     rfl⟩

/-- A refreshing pulse on an active session with a non-negative timeout:
full seconds remain and only the presence clock changes. -/
lemma maintenance_pulse_active_fresh (s : AMState) (now : ℚ)
    (hact : is_override_active s = true)
    (hng : ¬ (s.cfg.MAINTENANCE_TIMEOUT_SEC < 0)) :
    maintenance_pulse true now s =
      ((true, "ACTIVE: Session confirmed. Timeout in " ++
         toString (pyInt s.cfg.MAINTENANCE_TIMEOUT_SEC) ++ "s"),
       { s with last_presence_time := now }) := by
  unfold maintenance_pulse
  simp [hact, eq_false hng]

/-- A non-refreshing pulse on an active session within the timeout:
reports the truncated remaining seconds and leaves the state unchanged. -/
lemma maintenance_pulse_active_stale (s : AMState) (now : ℚ)
    (hact : is_override_active s = true)
    (hng : ¬ (s.cfg.MAINTENANCE_TIMEOUT_SEC < now - s.last_presence_time)) :
    maintenance_pulse false now s =
      ((true, "ACTIVE: Session confirmed. Timeout in " ++
         toString (pyInt (s.cfg.MAINTENANCE_TIMEOUT_SEC - (now - s.last_presence_time))) ++
         "s"), s) := by
  unfold maintenance_pulse
  simp [hact, eq_false hng]

/-- C8: an active pulse whose elapsed time (after any presence refresh)
does not exceed the timeout stays active, reporting the whole seconds
remaining as the floor of timeout minus elapsed; with the operator
present the refresh happens first, so elapsed is exactly zero. -/
theorem C8_active_pulse_seconds (s : AMState) (present : Bool) (now : ℚ)
    (hact : is_override_active s = true)
    (hel : now - (if present then now else s.last_presence_time) ≤
      s.cfg.MAINTENANCE_TIMEOUT_SEC) :
    maintenance_pulse present now s =
      ((true,
        "ACTIVE: Session confirmed. Timeout in " ++
          toString ⌊s.cfg.MAINTENANCE_TIMEOUT_SEC -
            (now - (if present then now else s.last_presence_time))⌋ ++ "s"),
       { s with last_presence_time := if present then now else s.last_presence_time }) ∧
    (present = true → now - (if present then now else s.last_presence_time) = 0) := by
  cases present
  · have hel' : now - s.last_presence_time ≤ s.cfg.MAINTENANCE_TIMEOUT_SEC := hel
    have h0 : 0 ≤ s.cfg.MAINTENANCE_TIMEOUT_SEC - (now - s.last_presence_time) := by
      linarith
    constructor
    · rw [maintenance_pulse_active_stale s now hact (not_lt.mpr hel'),
        pyInt_of_nonneg h0]
      rfl
    · intro hp
      exact (Bool.false_ne_true hp).elim
  · have hel' : now - now ≤ s.cfg.MAINTENANCE_TIMEOUT_SEC := hel
    have hT0 : (0 : ℚ) ≤ s.cfg.MAINTENANCE_TIMEOUT_SEC := by
      have h2 : now - now = 0 := sub_self now
      rw [h2] at hel'
      exact hel'
    constructor
    · rw [maintenance_pulse_active_fresh s now hact (not_lt.mpr hT0),
        pyInt_of_nonneg hT0]
      simp [sub_self]
    · intro _
      exact sub_self now

/-- Witness for C8 at a concrete active state with the operator present. -/
theorem C8_witness :
    maintenance_pulse true 1000 sampleActive =
      ((true,
        "ACTIVE: Session confirmed. Timeout in " ++
          toString ⌊sampleActive.cfg.MAINTENANCE_TIMEOUT_SEC -
            ((1000 : ℚ) - (if true then (1000 : ℚ) else sampleActive.last_presence_time))⌋ ++
          "s"),
       { sampleActive with
           last_presence_time := if true then (1000 : ℚ)
             else sampleActive.last_presence_time }) ∧
    (1000 : ℚ) - (if true then (1000 : ℚ) else sampleActive.last_presence_time) = 0 :=
  ⟨(C8_active_pulse_seconds sampleActive true 1000 rfl
      (by norm_num [sampleActive, defaultConfig])).1,
   (C8_active_pulse_seconds sampleActive true 1000 rfl
      (by norm_num [sampleActive, defaultConfig])).2 rfl⟩

/-- C10: with the operator present and a non-negative timeout, a pulse on
an active session never expires it, however much time has passed: the
refreshed elapsed time is zero, the call stays active, and the session
survives with the presence clock set to the current time. -/
theorem C10_present_pulse_no_expiry (s : AMState) (now : ℚ)
    (hact : is_override_active s = true)
    (hT : 0 ≤ s.cfg.MAINTENANCE_TIMEOUT_SEC) :
    (maintenance_pulse true now s).1.1 = true ∧
    (maintenance_pulse true now s).2 = { s with last_presence_time := now } ∧
    is_override_active (maintenance_pulse true now s).2 = true := by
  rw [maintenance_pulse_active_fresh s now hact (not_lt.mpr hT)]
  exact ⟨rfl, rfl, hact⟩

/-- Witness for C10: a pulse arbitrarily far in the future keeps the
session alive when the operator is present. -/
theorem C10_witness :
    (maintenance_pulse true 99999 sampleActive).1.1 = true ∧
    (maintenance_pulse true 99999 sampleActive).2 =
      { sampleActive with last_presence_time := 99999 } ∧
    is_override_active (maintenance_pulse true 99999 sampleActive).2 = true :=
  C10_present_pulse_no_expiry sampleActive 99999 rfl
    (by norm_num [sampleActive, defaultConfig])

/-- A pulse in standby is a no-op with the standby message. -/
lemma maintenance_pulse_standby (p : Bool) (now : ℚ) (s : AMState)
    (h : is_override_active s = false) :
    maintenance_pulse p now s = ((true, "STANDBY: No active override."), s) := by
  unfold maintenance_pulse
  simp [h]

/-- A non-refreshing pulse strictly past the timeout: emergency and
forced logout. -/
lemma maintenance_pulse_expired_stale (s : AMState) (now : ℚ)
    (hact : is_override_active s = true)
    (hgt : s.cfg.MAINTENANCE_TIMEOUT_SEC < now - s.last_presence_time) :
    maintenance_pulse false now s =
      ((false, "EMERGENCY: Watchdog timeout. Reverting to Safe Mode."),
        secure_logout s) := by
  unfold maintenance_pulse
  simp [hact, hgt]

/-- A refreshing pulse with a negative timeout: emergency and forced
logout (elapsed is zero but still exceeds the timeout). -/
lemma maintenance_pulse_expired_fresh (s : AMState) (now : ℚ)
    (hact : is_override_active s = true)
    (hgt : s.cfg.MAINTENANCE_TIMEOUT_SEC < 0) :
    maintenance_pulse true now s =
      ((false, "EMERGENCY: Watchdog timeout. Reverting to Safe Mode."),
        secure_logout s) := by
  unfold maintenance_pulse
  simp [hact, hgt, secure_logout]

/-- The override check is the same notion on both related states. -/
lemma is_override_active_congr {s t : AMState} (hS : s.active_session = t.active_session) :
    is_override_active s = is_override_active t := by
  unfold is_override_active
  rw [hS]

/-- One API call is observed identically on, and preserves, the
heartbeat-agnostic relation. -/
lemma hbAgnostic_step (op : Op) (s t : AMState) (h : hbAgnostic s t) :
    obsOp op s = obsOp op t ∧ hbAgnostic (applyOp op s) (applyOp op t) := by
  obtain ⟨hT, hC, hS, hL, hB⟩ := h
  have hIs : is_override_active s = is_override_active t := is_override_active_congr hS
  cases op with
  | reqOverride b v now =>
    cases b <;> cases v
    · exact ⟨rfl, hT, hC, hS, hL, hB⟩
    · exact ⟨rfl, hT, hC, hS, hL, hB⟩
    · exact ⟨rfl, hT, hC, hS, hL, hB⟩
    · dsimp only [obsOp, applyOp]
      unfold request_override
      dsimp only
      rw [hC]
      split
      · split
        · exact ⟨rfl, hT, hC, rfl, rfl, rfl⟩
        · exact ⟨rfl, hT, hC, hS, hL, hB⟩
      · exact ⟨rfl, hT, hC, hS, hL, hB⟩
  | pulse p now =>
    dsimp only [obsOp, applyOp]
    by_cases hact : is_override_active s = true
    · have hactt : is_override_active t = true := by
        rw [← hIs]
        exact hact
      cases p
      · by_cases hgt : s.cfg.MAINTENANCE_TIMEOUT_SEC < now - s.last_presence_time
        · have hgtt : t.cfg.MAINTENANCE_TIMEOUT_SEC < now - t.last_presence_time := by
            rw [← hT, ← hL]
            exact hgt
          rw [maintenance_pulse_expired_stale s now hact hgt,
            maintenance_pulse_expired_stale t now hactt hgtt]
          exact ⟨rfl, hT, hC, rfl, rfl, rfl⟩
        · have hgtt : ¬ t.cfg.MAINTENANCE_TIMEOUT_SEC < now - t.last_presence_time := by
            rw [← hT, ← hL]
            exact hgt
          rw [maintenance_pulse_active_stale s now hact hgt,
            maintenance_pulse_active_stale t now hactt hgtt, hT, hL]
          exact ⟨rfl, hT, hC, hS, hL, hB⟩
      · by_cases hgt : s.cfg.MAINTENANCE_TIMEOUT_SEC < 0
        · have hgtt : t.cfg.MAINTENANCE_TIMEOUT_SEC < 0 := by
            rw [← hT]
            exact hgt
          rw [maintenance_pulse_expired_fresh s now hact hgt,
            maintenance_pulse_expired_fresh t now hactt hgtt]
          exact ⟨rfl, hT, hC, rfl, rfl, rfl⟩
        · have hgtt : ¬ t.cfg.MAINTENANCE_TIMEOUT_SEC < 0 := by
            rw [← hT]
            exact hgt
          rw [maintenance_pulse_active_fresh s now hact hgt,
            maintenance_pulse_active_fresh t now hactt hgtt, hT]
          exact ⟨rfl, hT, hC, hS, rfl, hB⟩
    · have hactf : is_override_active s = false := by
        revert hact
        cases is_override_active s <;> simp
      have hactft : is_override_active t = false := by
        rw [← hIs]
        exact hactf
      rw [maintenance_pulse_standby p now s hactf,
        maintenance_pulse_standby p now t hactft]
      exact ⟨rfl, hT, hC, hS, hL, hB⟩
  | telemetry now =>
    refine ⟨?_, hT, hC, hS, hL, hB⟩
    dsimp only [obsOp]
    unfold get_telemetry
    rw [hIs, hT, hS, hL, hB]
  | logout =>
    exact ⟨rfl, hT, hC, rfl, rfl, rfl⟩

/-- C9: the heartbeat-threshold field is unobservable: starting from two
states that differ only in it, every call sequence produces identical
outputs and keeps the states identical apart from that field. -/
theorem C9_heartbeat_threshold_unobservable (ops : List Op) (s t : AMState)
    (h : hbAgnostic s t) :
    runOutputs ops s = runOutputs ops t ∧
    hbAgnostic (runState ops s) (runState ops t) := by
  induction ops generalizing s t with
  | nil => exact ⟨rfl, h⟩
  | cons op rest ih =>
    obtain ⟨ho, hs⟩ := hbAgnostic_step op s t h
    obtain ⟨ho', hs'⟩ := ih _ _ hs
    refine ⟨?_, hs'⟩
    simp only [runOutputs, ho, ho']

/-- Witness for C9: two default managers whose configurations differ only
in the heartbeat threshold run a concrete call sequence identically. -/
theorem C9_witness :
    runOutputs
        [Op.reqOverride (some (pstr "ARCH-001")) (some (pstr "admin override")) 1,
         Op.pulse true 2, Op.telemetry 3, Op.logout]
        (initState defaultConfig) =
      runOutputs
        [Op.reqOverride (some (pstr "ARCH-001")) (some (pstr "admin override")) 1,
         Op.pulse true 2, Op.telemetry 3, Op.logout]
        (initState { defaultConfig with HEARTBEAT_THRESHOLD_SEC := 55 }) ∧
    hbAgnostic
      (runState
        [Op.reqOverride (some (pstr "ARCH-001")) (some (pstr "admin override")) 1,
         Op.pulse true 2, Op.telemetry 3, Op.logout]
        (initState defaultConfig))
      (runState
        [Op.reqOverride (some (pstr "ARCH-001")) (some (pstr "admin override")) 1,
         Op.pulse true 2, Op.telemetry 3, Op.logout]
        (initState { defaultConfig with HEARTBEAT_THRESHOLD_SEC := 55 })) :=
  C9_heartbeat_threshold_unobservable _ _ _ ⟨rfl, rfl, rfl, rfl, rfl⟩

end AccessMgr
